import Mathlib

/-!
Shallow embedding of the session/transport core of the Railway MCP server
(src/index.ts). The session store `transports` is a string-keyed record
mapping a session id to its transport; we embed it as an association list
with JavaScript record semantics (assignment replaces an existing key or
appends a fresh one, `delete` removes the key). External collaborators
(the MCP SDK transports and the GraphQL backend) are modelled by outcome
oracles: each `await`ed external call either succeeds, fails before the
HTTP response has begun, or fails after headers were sent.
-/

/-- The two transport protocols multiplexed by the router:
`StreamableHTTPServerTransport` and `SSEServerTransport`. -/
inductive TransportKind
  | RequestResponseStream
  | EventStream
deriving DecidableEq, Repr

/-- The `transports` record of src/index.ts: session id to transport kind.
JavaScript object semantics: one entry per key, insertion order kept. -/
abbrev SessionMap := List (String × TransportKind)

/-- Record lookup `transports[sessionId]`. -/
def lookupSession : SessionMap → String → Option TransportKind
  | [], _ => none
  | (k, t) :: rest, sid => if k = sid then some t else lookupSession rest sid

/-- Record assignment `transports[sid] = t`: replaces an existing entry for
the key, otherwise appends. -/
def recordSet : SessionMap → String → TransportKind → SessionMap
  | [], sid, t => [(sid, t)]
  | (k, t0) :: rest, sid, t =>
    if k = sid then (k, t) :: rest else (k, t0) :: recordSet rest sid t

/-- Record deletion `delete transports[sid]`. -/
def recordDelete : SessionMap → String → SessionMap
  | [], _ => []
  | (k, t) :: rest, sid =>
    if k = sid then recordDelete rest sid else (k, t) :: recordDelete rest sid

/-- `Object.keys(transports)`. -/
def keysOf (st : SessionMap) : List String := st.map Prod.fst

/-- The `sessions` field of the `GET /health` response:
`Object.keys(transports).length`. -/
def health (st : SessionMap) : Nat := (keysOf st).length

/-- Outcome oracle for an awaited external call (SDK transport method or
engine connect): success, failure thrown before the HTTP response has
begun, or failure after headers were already sent. -/
inductive HandleOutcome
  | ok
  | errEarly
  | errLate
deriving DecidableEq, Repr

/-- How an HTTP request leaves the router:
- `sent status code header`: the router itself wrote a response (`code` is
  the JSON-RPC error envelope code when one is present, `header` a
  Mcp-Session-Id response header);
- `streamed header`: the SDK transport wrote the response;
- `abandoned`: a failure after headers were sent, connection terminates;
- `escaped`: an exception propagated past the router (no catch). -/
inductive HttpReply
  | sent (status : Nat) (errorCode : Option Int) (sessionHeader : Option String)
  | streamed (sessionHeader : Option String)
  | abandoned
  | escaped
deriving DecidableEq, Repr

/-- External calls issued by a router branch, in order. -/
inductive ExtCall
  | connectEngine (sid : String)
  | handleRequest (sid : String)
  | handlePostMessage (sid : String)
  | closeTransport (sid : String)
deriving DecidableEq, Repr

/-- Result of one router branch: the HTTP reply, the external calls made,
and the session map afterwards. -/
structure RouterOutcome where
  reply : HttpReply
  calls : List ExtCall
  st : SessionMap
deriving DecidableEq, Repr

/-- `app.post("/mcp")` (src/index.ts:197-234). `freshId` is the value
`randomUUID()` returned; `header` the `mcp-session-id` request header
(`none` when absent); `isInit` whether `req.body?.method` is the
protocol's session-opening method. On the init branch the new transport
is stored, an engine is built and connected, and the body is forwarded;
the SDK replies with the generated id in the Mcp-Session-Id header. On
the forward branch the entry is fetched with no transport-kind check and
its `handleRequest` is invoked; an `EventStream` entry has no such method
(the SDK SSE transport lacks it), so the call throws at once — before any
headers — and the catch-all answers 500 with code -32603. The catch-all
turns any pre-headers failure into a 500 carrying code -32603 and logs
post-headers failures. -/
def postMcp (st : SessionMap) (freshId : String) (header : Option String)
    (isInit : Bool) (o : HandleOutcome) : RouterOutcome :=
  if isInit then
    let st1 := recordSet st freshId TransportKind.RequestResponseStream
    let calls := [ExtCall.connectEngine freshId, ExtCall.handleRequest freshId]
    match o with
    | HandleOutcome.ok => ⟨HttpReply.streamed (some freshId), calls, st1⟩
    | HandleOutcome.errEarly => ⟨HttpReply.sent 500 (some (-32603)) none, calls, st1⟩
    | HandleOutcome.errLate => ⟨HttpReply.abandoned, calls, st1⟩
  else
    match header with
    | none => ⟨HttpReply.sent 400 (some (-32000)) none, [], st⟩
    | some sid =>
      if sid = "" then ⟨HttpReply.sent 400 (some (-32000)) none, [], st⟩
      else
        match lookupSession st sid with
        | none => ⟨HttpReply.sent 400 (some (-32000)) none, [], st⟩
        | some TransportKind.RequestResponseStream =>
          match o with
          | HandleOutcome.ok => ⟨HttpReply.streamed none, [ExtCall.handleRequest sid], st⟩
          | HandleOutcome.errEarly =>
            ⟨HttpReply.sent 500 (some (-32603)) none, [ExtCall.handleRequest sid], st⟩
          | HandleOutcome.errLate => ⟨HttpReply.abandoned, [ExtCall.handleRequest sid], st⟩
        | some TransportKind.EventStream =>
          ⟨HttpReply.sent 500 (some (-32603)) none, [], st⟩

/-- `app.delete("/mcp")` (src/index.ts:237-247). There is no try/catch in
this handler: when the entry is live, `await transport.close?.()` runs
outside any guard, so a failing close (`closeOk = false`) propagates out
of the handler — the entry is then not deleted and no response is
written. A falsy or unknown session id answers 404. -/
def deleteMcp (st : SessionMap) (header : Option String) (closeOk : Bool) : RouterOutcome :=
  match header with
  | none => ⟨HttpReply.sent 404 none none, [], st⟩
  | some sid =>
    if sid = "" then ⟨HttpReply.sent 404 none none, [], st⟩
    else
      match lookupSession st sid with
      | none => ⟨HttpReply.sent 404 none none, [], st⟩
      | some _ =>
        if closeOk then
          ⟨HttpReply.sent 204 none none, [ExtCall.closeTransport sid], recordDelete st sid⟩
        else
          ⟨HttpReply.escaped, [ExtCall.closeTransport sid], st⟩

/-- `app.get("/sse")` (src/index.ts:250-281). A new SSE transport is built
(its SDK-generated session id is `freshId`), stored, and an engine is
connected inside a try/catch: on failure the entry is deleted again and,
when headers were not yet sent, a bare 500 is written. -/
def getSse (st : SessionMap) (freshId : String) (o : HandleOutcome) : RouterOutcome :=
  let st1 := recordSet st freshId TransportKind.EventStream
  match o with
  | HandleOutcome.ok => ⟨HttpReply.streamed (some freshId), [ExtCall.connectEngine freshId], st1⟩
  | HandleOutcome.errEarly =>
    ⟨HttpReply.sent 500 none none, [ExtCall.connectEngine freshId], recordDelete st1 freshId⟩
  | HandleOutcome.errLate =>
    ⟨HttpReply.abandoned, [ExtCall.connectEngine freshId], recordDelete st1 freshId⟩

/-- `app.post("/messages")` (src/index.ts:284-305). A falsy `sessionId`
query parameter answers 400; an entry that is missing or is not an
`SSEServerTransport` answers 404; otherwise `handlePostMessage` is
invoked inside a try/catch. -/
def postMessages (st : SessionMap) (query : Option String) (o : HandleOutcome) : RouterOutcome :=
  match query with
  | none => ⟨HttpReply.sent 400 none none, [], st⟩
  | some sid =>
    if sid = "" then ⟨HttpReply.sent 400 none none, [], st⟩
    else
      match lookupSession st sid with
      | some TransportKind.EventStream =>
        match o with
        | HandleOutcome.ok => ⟨HttpReply.streamed none, [ExtCall.handlePostMessage sid], st⟩
        | HandleOutcome.errEarly =>
          ⟨HttpReply.sent 500 none none, [ExtCall.handlePostMessage sid], st⟩
        | HandleOutcome.errLate => ⟨HttpReply.abandoned, [ExtCall.handlePostMessage sid], st⟩
      | _ => ⟨HttpReply.sent 404 none none, [], st⟩

/-- Backend mutations the variable commands can issue. -/
inductive BackendCall
  | setVariable (name value : String)
  | deleteVariable (name : String)
deriving DecidableEq, Repr

/-- State of the `set_variables_bulk` tool handler when it returns or when
an exception escapes it: the backend calls issued in order, the local
`results` array accumulated so far, and the key whose call threw (if
any; that exception propagates out of the handler, so on failure the
accumulated `results` are never returned to the caller). -/
structure BulkOutcome where
  calls : List BackendCall
  results : List (String × Bool)
  failed : Option String
deriving DecidableEq, Repr

/-- The `set_variables_bulk` tool (src/index.ts:137-149): iterate the
entries of `variables` in order; for each key issue one `variableUpsert`
backend call, push `{name, success:true}` on success, and let a thrown
backend error end the loop. `backendOk` is the backend oracle. -/
def set_variables_bulk (vars : List (String × String)) (backendOk : String → Bool) :
    BulkOutcome :=
  match vars with
  | [] => ⟨[], [], none⟩
  | (name, value) :: rest =>
    if backendOk name then
      let r := set_variables_bulk rest backendOk
      ⟨BackendCall.setVariable name value :: r.calls, (name, true) :: r.results, r.failed⟩
    else
      ⟨[BackendCall.setVariable name value], [], some name⟩

/-- One step of a session-lifecycle trace: a successful session-opening
POST to /mcp, a successful GET /sse, a DELETE /mcp with the given header
value (close succeeding), or an SSE connection close firing `onclose`. -/
inductive SessionOp
  | createRR
  | createSSE
  | destroy (sid : String)
  | sseClose (sid : String)
deriving DecidableEq, Repr

/-- Run a lifecycle trace through the actual router handlers, threading the
session map and the count of ids drawn from the generator `gen`. -/
def runOps (gen : Nat → String) : List SessionOp → SessionMap × Nat → SessionMap × Nat
  | [], s => s
  | SessionOp.createRR :: rest, (st, n) =>
    runOps gen rest ((postMcp st (gen n) none true HandleOutcome.ok).st, n + 1)
  | SessionOp.createSSE :: rest, (st, n) =>
    runOps gen rest ((getSse st (gen n) HandleOutcome.ok).st, n + 1)
  | SessionOp.destroy sid :: rest, (st, n) =>
    runOps gen rest ((deleteMcp st (some sid) true).st, n)
  | SessionOp.sseClose sid :: rest, (st, n) =>
    runOps gen rest (recordDelete st sid, n)

/-- Remove every occurrence of an id from a list of ids. -/
def removeId : List String → String → List String
  | [], _ => []
  | s :: rest, sid => if s = sid then removeId rest sid else s :: removeId rest sid

/-- Modelled from the spec: the claimed observable, "the number of
currently live (created and not yet destroyed) sessions", computed
directly on the trace with no reference to the router: a create adds the
generated id to the live list, a destroy or SSE close removes it. -/
def liveTrace (gen : Nat → String) : List SessionOp → List String × Nat → List String × Nat
  | [], s => s
  | SessionOp.createRR :: rest, (live, n) => liveTrace gen rest (live ++ [gen n], n + 1)
  | SessionOp.createSSE :: rest, (live, n) => liveTrace gen rest (live ++ [gen n], n + 1)
  | SessionOp.destroy sid :: rest, (live, n) => liveTrace gen rest (removeId live sid, n)
  | SessionOp.sseClose sid :: rest, (live, n) => liveTrace gen rest (removeId live sid, n)

/-- A concrete injective id generator used by the witnesses. -/
def genA (n : Nat) : String := String.mk (List.replicate (n + 1) 'a')

/-- Concrete bulk input used by witnesses and counterexamples. -/
def exVars : List (String × String) := [("A", "1"), ("B", "2"), ("C", "3")]

/-- Concrete backend oracle rejecting exactly the key B. -/
def exOk : String → Bool := fun n => n != "B"

/-- Concrete lifecycle trace used by witnesses: create, destroy the first
session, create again. -/
def ops0 : List SessionOp :=
  [SessionOp.createRR, SessionOp.destroy (genA 0), SessionOp.createSSE]

lemma genA_injective : Function.Injective genA := by
  intro a b h
  have h2 := congrArg (fun s => s.data.length) h
  simpa [genA] using h2

lemma genA_ne_empty (n : Nat) : genA n ≠ "" := by
  intro h
  have h2 := congrArg (fun s => s.data.length) h
  simp [genA] at h2

lemma lookupSession_eq_none_iff (st : SessionMap) (sid : String) :
    lookupSession st sid = none ↔ sid ∉ keysOf st := by
  induction st with
  | nil => simp [lookupSession, keysOf]
  | cons p rest ih =>
    obtain ⟨k, t⟩ := p
    by_cases hk : k = sid
    · subst hk
      simp [lookupSession, keysOf]
    · simp [lookupSession, keysOf, hk, Ne.symm hk] at ih ⊢
      exact ih

lemma recordSet_eq_append (st : SessionMap) (sid : String) (t : TransportKind)
    (h : lookupSession st sid = none) : recordSet st sid t = st ++ [(sid, t)] := by
  induction st with
  | nil => simp [recordSet]
  | cons p rest ih =>
    obtain ⟨k, t0⟩ := p
    by_cases hk : k = sid
    · subst hk
      simp [lookupSession] at h
    · simp [lookupSession, hk] at h
      simp [recordSet, hk, ih h]

lemma keysOf_append (st : SessionMap) (sid : String) (t : TransportKind) :
    keysOf (st ++ [(sid, t)]) = keysOf st ++ [sid] := by
  simp [keysOf]

lemma keysOf_recordDelete (st : SessionMap) (sid : String) :
    keysOf (recordDelete st sid) = removeId (keysOf st) sid := by
  induction st with
  | nil => simp [recordDelete, keysOf, removeId]
  | cons p rest ih =>
    obtain ⟨k, t⟩ := p
    simp [keysOf] at ih
    by_cases hk : k = sid
    · simp [recordDelete, keysOf, removeId, hk, ih]
    · simp [recordDelete, keysOf, removeId, hk, ih]

lemma removeId_of_not_mem (l : List String) (sid : String) (h : sid ∉ l) :
    removeId l sid = l := by
  induction l with
  | nil => simp [removeId]
  | cons s rest ih =>
    simp at h
    simp [removeId, Ne.symm h.1, ih h.2]

lemma mem_removeId (l : List String) (sid s : String) (h : s ∈ removeId l sid) :
    s ∈ l := by
  induction l with
  | nil => simp [removeId] at h
  | cons a rest ih =>
    by_cases ha : a = sid
    · simp [removeId, ha] at h
      exact List.mem_cons_of_mem _ (ih h)
    · simp [removeId, ha] at h
      rcases h with h | h
      · simp [h]
      · exact List.mem_cons_of_mem _ (ih h)

lemma lookupSession_recordDelete (st : SessionMap) (sid : String) :
    lookupSession (recordDelete st sid) sid = none := by
  induction st with
  | nil => simp [recordDelete, lookupSession]
  | cons p rest ih =>
    obtain ⟨k, t⟩ := p
    by_cases hk : k = sid
    · simp [recordDelete, hk, ih]
    · simp [recordDelete, lookupSession, hk, ih]

lemma lookupSession_append_single (st : SessionMap) (sid : String) (t : TransportKind)
    (h : lookupSession st sid = none) :
    lookupSession (st ++ [(sid, t)]) sid = some t := by
  induction st with
  | nil => simp [lookupSession]
  | cons p rest ih =>
    obtain ⟨k, t0⟩ := p
    by_cases hk : k = sid
    · subst hk
      simp [lookupSession] at h
    · simp [lookupSession, hk] at h ⊢
      exact ih h

/-- Running the bulk-set loop when the backend accepts every key: one call
per key in input order, one success entry per key, no escaping error. -/
lemma bulk_all_ok (vars : List (String × String)) (backendOk : String → Bool)
    (h : ∀ p ∈ vars, backendOk p.1 = true) :
    set_variables_bulk vars backendOk =
      ⟨vars.map (fun p => BackendCall.setVariable p.1 p.2),
       vars.map (fun p => (p.1, true)), none⟩ := by
  induction vars with
  | nil => rfl
  | cons p rest ih =>
    obtain ⟨name, value⟩ := p
    have hn : backendOk name = true := h (name, value) (by simp)
    have hr := ih (fun q hq => h q (List.mem_cons_of_mem _ hq))
    simp [set_variables_bulk, hn, hr]

/-- Running the bulk-set loop when the backend accepts every key of `pre`
and rejects `k`: the calls are exactly one per key of `pre` in order plus
the failing call for `k`; nothing in `post` is attempted, no undo call is
issued, and the accumulated results cover only `pre`. -/
lemma bulk_first_failure (pre : List (String × String)) (k v : String)
    (post : List (String × String)) (backendOk : String → Bool)
    (hpre : ∀ p ∈ pre, backendOk p.1 = true) (hk : backendOk k = false) :
    set_variables_bulk (pre ++ (k, v) :: post) backendOk =
      ⟨pre.map (fun p => BackendCall.setVariable p.1 p.2) ++ [BackendCall.setVariable k v],
       pre.map (fun p => (p.1, true)), some k⟩ := by
  induction pre with
  | nil => simp [set_variables_bulk, hk]
  | cons p rest ih =>
    obtain ⟨name, value⟩ := p
    have hn : backendOk name = true := hpre (name, value) (by simp)
    have hr := ih (fun q hq => hpre q (List.mem_cons_of_mem _ hq))
    simp [set_variables_bulk, hn, hr]

/-- The simulation invariant between the router state and the spec-level
live-session trace: the router's key list is exactly the live list, the
id counters agree, and every live id was drawn from the generator at an
index below the counter. -/
lemma runOps_liveTrace (gen : Nat → String) (hg : Function.Injective gen)
    (hne : ∀ n, gen n ≠ "") :
    ∀ (ops : List SessionOp) (st : SessionMap) (live : List String) (n : Nat),
      keysOf st = live → (∀ s ∈ live, ∃ i, i < n ∧ s = gen i) →
      keysOf (runOps gen ops (st, n)).1 = (liveTrace gen ops (live, n)).1
      ∧ (runOps gen ops (st, n)).2 = (liveTrace gen ops (live, n)).2
      ∧ ∀ s ∈ (liveTrace gen ops (live, n)).1,
          ∃ i, i < (liveTrace gen ops (live, n)).2 ∧ s = gen i := by
  intro ops
  induction ops with
  | nil =>
    intro st live n hkeys hbound
    exact ⟨hkeys, rfl, hbound⟩
  | cons op rest ih =>
    intro st live n hkeys hbound
    have hfresh : gen n ∉ live := by
      intro hmem
      obtain ⟨i, hi, hgi⟩ := hbound _ hmem
      exact absurd (hg hgi) (Nat.ne_of_gt hi)
    have hlook : lookupSession st (gen n) = none := by
      rw [lookupSession_eq_none_iff, hkeys]
      exact hfresh
    have hboundS : ∀ s ∈ live ++ [gen n], ∃ i, i < n + 1 ∧ s = gen i := by
      intro s hs
      rcases List.mem_append.mp hs with hs | hs
      · obtain ⟨i, hi, hgi⟩ := hbound _ hs
        exact ⟨i, Nat.lt_succ_of_lt hi, hgi⟩
      · simp at hs
        exact ⟨n, Nat.lt_succ_self n, hs⟩
    cases op with
    | createRR =>
      have hstep : (postMcp st (gen n) none true HandleOutcome.ok).st
          = st ++ [(gen n, TransportKind.RequestResponseStream)] := by
        simp [postMcp, recordSet_eq_append st _ _ hlook]
      have hkeys2 : keysOf (postMcp st (gen n) none true HandleOutcome.ok).st
          = live ++ [gen n] := by
        rw [hstep, keysOf_append, hkeys]
      simpa [runOps, liveTrace] using ih _ _ _ hkeys2 hboundS
    | createSSE =>
      have hstep : (getSse st (gen n) HandleOutcome.ok).st
          = st ++ [(gen n, TransportKind.EventStream)] := by
        simp [getSse, recordSet_eq_append st _ _ hlook]
      have hkeys2 : keysOf (getSse st (gen n) HandleOutcome.ok).st = live ++ [gen n] := by
        rw [hstep, keysOf_append, hkeys]
      simpa [runOps, liveTrace] using ih _ _ _ hkeys2 hboundS
    | destroy sid =>
      have hboundD : ∀ s ∈ removeId live sid, ∃ i, i < n ∧ s = gen i :=
        fun s hs => hbound s (mem_removeId _ _ _ hs)
      have hkeys2 : keysOf (deleteMcp st (some sid) true).st = removeId live sid := by
        by_cases hsid : sid = ""
        · subst hsid
          have hno : "" ∉ live := by
            intro hmem
            obtain ⟨i, _, hgi⟩ := hbound _ hmem
            exact hne i hgi.symm
          simp [deleteMcp, hkeys, removeId_of_not_mem _ _ hno]
        · cases hlk : lookupSession st sid with
          | none =>
            have hno : sid ∉ live := by
              rw [← hkeys]
              exact (lookupSession_eq_none_iff st sid).mp hlk
            simp [deleteMcp, hsid, hlk, hkeys, removeId_of_not_mem _ _ hno]
          | some t =>
            simp [deleteMcp, hsid, hlk, keysOf_recordDelete, hkeys]
      simpa [runOps, liveTrace] using ih _ _ _ hkeys2 hboundD
    | sseClose sid =>
      have hboundD : ∀ s ∈ removeId live sid, ∃ i, i < n ∧ s = gen i :=
        fun s hs => hbound s (mem_removeId _ _ _ hs)
      have hkeys2 : keysOf (recordDelete st sid) = removeId live sid := by
        rw [keysOf_recordDelete, hkeys]
      simpa [runOps, liveTrace] using ih _ _ _ hkeys2 hboundD

/-- Claim C1: a POST to /mcp whose body is not the session-opening message
and whose session header is absent, empty, or unknown is answered with
HTTP 400 carrying the JSON-RPC error envelope code -32000; the session
map is untouched and no engine or backend call is issued. -/
theorem postMcp_invalid_session_rejected (st : SessionMap) (freshId : String)
    (hdr : Option String) (o : HandleOutcome)
    (h : ∀ sid, hdr = some sid → sid = "" ∨ lookupSession st sid = none) :
    (postMcp st freshId hdr false o).reply = HttpReply.sent 400 (some (-32000)) none
    ∧ (postMcp st freshId hdr false o).calls = []
    ∧ (postMcp st freshId hdr false o).st = st := by
  cases hdr with
  | none => exact ⟨rfl, rfl, rfl⟩
  | some sid =>
    rcases h sid rfl with hs | hs
    · subst hs
      simp [postMcp]
    · simp [postMcp, hs]

/-- Witness for C1: absent header against an empty session store. -/
theorem postMcp_invalid_session_rejected_witness :
    (∀ sid : String, (none : Option String) = some sid → sid = "" ∨ lookupSession [] sid = none)
    ∧ (postMcp [] "u1" none false HandleOutcome.ok).reply
        = HttpReply.sent 400 (some (-32000)) none
    ∧ (postMcp [] "u1" none false HandleOutcome.ok).calls = [] := by
  have h := postMcp_invalid_session_rejected [] "u1" none HandleOutcome.ok
    (fun sid hs => Option.noConfusion hs)
  exact ⟨fun sid hs => Option.noConfusion hs, h.1, h.2.1⟩

/-- Counterexample to claim C2 as stated: with one live session whose
transport close fails, DELETE /mcp does not swallow the failure — it
escapes the handler, no 204 is produced, and the entry stays in the
map. -/
theorem deleteMcp_close_failure_not_swallowed :
    (deleteMcp [("s1", TransportKind.RequestResponseStream)] (some "s1") false).reply
      = HttpReply.escaped
    ∧ (deleteMcp [("s1", TransportKind.RequestResponseStream)] (some "s1") false).reply
      ≠ HttpReply.sent 204 none none
    ∧ (deleteMcp [("s1", TransportKind.RequestResponseStream)] (some "s1") false).st
      = [("s1", TransportKind.RequestResponseStream)] := by
  refine ⟨?_, ?_, ?_⟩ <;> decide

/-- Claim C2 amended: destroy is total and idempotent when close succeeds —
a live id gets its transport closed, its entry removed and 204, a second
destroy of the same id then answers 404 with the map unchanged, and an
absent or unknown id always answers 404 with no call and no state
change — but a failure during close is not swallowed: it escapes the
handler and the entry is not removed. -/
theorem deleteMcp_destroy_spec (st : SessionMap) (sid : String) (h1 : sid ≠ "")
    (h2 : (lookupSession st sid).isSome = true) :
    ((deleteMcp st (some sid) true).reply = HttpReply.sent 204 none none
      ∧ (deleteMcp st (some sid) true).calls = [ExtCall.closeTransport sid]
      ∧ (deleteMcp st (some sid) true).st = recordDelete st sid)
    ∧ ((deleteMcp (deleteMcp st (some sid) true).st (some sid) true).reply
        = HttpReply.sent 404 none none
      ∧ (deleteMcp (deleteMcp st (some sid) true).st (some sid) true).st
        = (deleteMcp st (some sid) true).st)
    ∧ ((deleteMcp st (some sid) false).reply = HttpReply.escaped
      ∧ (deleteMcp st (some sid) false).st = st)
    ∧ (∀ (st2 : SessionMap) (s2 : String) (ok2 : Bool), lookupSession st2 s2 = none →
        (deleteMcp st2 (some s2) ok2).reply = HttpReply.sent 404 none none
        ∧ (deleteMcp st2 (some s2) ok2).calls = []
        ∧ (deleteMcp st2 (some s2) ok2).st = st2)
    ∧ (∀ ok2 : Bool, (deleteMcp st none ok2).reply = HttpReply.sent 404 none none
        ∧ (deleteMcp st none ok2).st = st) := by
  obtain ⟨t, ht⟩ := Option.isSome_iff_exists.mp h2
  have hdel : (deleteMcp st (some sid) true).st = recordDelete st sid := by
    simp [deleteMcp, h1, ht]
  refine ⟨by simp [deleteMcp, h1, ht], ?_, by simp [deleteMcp, h1, ht], ?_, ?_⟩
  · rw [hdel]
    constructor <;> simp [deleteMcp, h1, lookupSession_recordDelete]
  · intro st2 s2 ok2 hl
    by_cases hs2 : s2 = ""
    · subst hs2
      simp [deleteMcp]
    · simp [deleteMcp, hs2, hl]
  · intro ok2
    simp [deleteMcp]

/-- Witness for C2 at a concrete session: destroy twice, 204 then 404. -/
theorem deleteMcp_destroy_spec_witness :
    ("s1" ≠ "" ∧ (lookupSession [("s1", TransportKind.RequestResponseStream)] "s1").isSome = true)
    ∧ (deleteMcp [("s1", TransportKind.RequestResponseStream)] (some "s1") true).reply
        = HttpReply.sent 204 none none
    ∧ (deleteMcp (deleteMcp [("s1", TransportKind.RequestResponseStream)] (some "s1") true).st
        (some "s1") true).reply = HttpReply.sent 404 none none := by
  have h := deleteMcp_destroy_spec [("s1", TransportKind.RequestResponseStream)] "s1"
    (by decide) (by decide)
  exact ⟨⟨by decide, by decide⟩, h.1.1, h.2.1.1⟩

/-- Claim C3: the bulk variable-set command issues its backend calls one
per key in input order, and when the backend rejects some key the loop
stops — the failing key receives the last call, no later key receives
any — while the calls already made stay exactly as issued: one upsert
per earlier key and no undoing call of any kind. -/
theorem bulk_stops_at_first_failure (pre : List (String × String)) (k v : String)
    (post : List (String × String)) (backendOk : String → Bool)
    (hpre : ∀ p ∈ pre, backendOk p.1 = true) (hk : backendOk k = false) :
    (set_variables_bulk (pre ++ (k, v) :: post) backendOk).calls
      = pre.map (fun p => BackendCall.setVariable p.1 p.2)
        ++ [BackendCall.setVariable k v] := by
  rw [bulk_first_failure pre k v post backendOk hpre hk]

/-- Witness for C3: keys A, B, C with the backend rejecting B — calls are
the upserts for A and B only. -/
theorem bulk_stops_at_first_failure_witness :
    ((∀ p ∈ [("A", "1")], exOk p.1 = true) ∧ exOk "B" = false)
    ∧ (set_variables_bulk exVars exOk).calls
        = [BackendCall.setVariable "A" "1", BackendCall.setVariable "B" "2"] := by
  refine ⟨⟨by decide, by decide⟩, ?_⟩
  have h := bulk_stops_at_first_failure [("A", "1")] "B" "2" [("C", "3")] exOk
    (by decide) (by decide)
  simpa [exVars] using h

/-- Counterexample to claim C4 as stated: on keys A, B, C with the backend
rejecting B, the loop does not continue through the full key set — only
two calls are issued, C is never attempted — and the accumulated result
carries no failure entry for B, only the success entry for A. -/
theorem bulk_no_per_key_failure_report :
    (set_variables_bulk exVars exOk).calls.length = 2
    ∧ exVars.length = 3
    ∧ ("B", false) ∉ (set_variables_bulk exVars exOk).results
    ∧ (set_variables_bulk exVars exOk).results = [("A", true)] := by
  refine ⟨?_, ?_, ?_, ?_⟩ <;> decide

/-- Claim C4 amended: execute performs an ordered sequence of individual
backend calls, one per input key, only up to and including the first key
whose call fails; when every call succeeds the aggregated result reports
success for each key, and when some call fails the keys after it are not
attempted, the accumulated results name only the keys applied before the
failure, and the failure escapes as a command error instead of being
reported as a per-key failure entry. -/
theorem bulk_results_spec (vars : List (String × String)) (backendOk : String → Bool) :
    ((∀ p ∈ vars, backendOk p.1 = true) →
      (set_variables_bulk vars backendOk).calls
        = vars.map (fun p => BackendCall.setVariable p.1 p.2)
      ∧ (set_variables_bulk vars backendOk).results = vars.map (fun p => (p.1, true))
      ∧ (set_variables_bulk vars backendOk).failed = none)
    ∧ (∀ pre k v post, vars = pre ++ (k, v) :: post →
        (∀ p ∈ pre, backendOk p.1 = true) → backendOk k = false →
      (set_variables_bulk vars backendOk).calls
        = pre.map (fun p => BackendCall.setVariable p.1 p.2)
          ++ [BackendCall.setVariable k v]
      ∧ (set_variables_bulk vars backendOk).results = pre.map (fun p => (p.1, true))
      ∧ (set_variables_bulk vars backendOk).failed = some k) := by
  constructor
  · intro h
    rw [bulk_all_ok vars backendOk h]
    exact ⟨rfl, rfl, rfl⟩
  · intro pre k v post hv hpre hk
    subst hv
    rw [bulk_first_failure pre k v post backendOk hpre hk]
    exact ⟨rfl, rfl, rfl⟩

/-- Witness for C4 (amended): keys A, B, C with B rejected — the result
set at the moment the failure escapes holds only the success for A, and
the escaping failure names B. -/
theorem bulk_results_spec_witness :
    (set_variables_bulk exVars exOk).results = [("A", true)]
    ∧ (set_variables_bulk exVars exOk).failed = some "B" := by
  have h := (bulk_results_spec exVars exOk).2 [("A", "1")] "B" "2" [("C", "3")]
    rfl (by decide) (by decide)
  exact ⟨h.2.1, h.2.2⟩

lemma postMcp_reply_not_escaped (st : SessionMap) (freshId : String) (hdr : Option String)
    (isInit : Bool) (o : HandleOutcome) :
    (postMcp st freshId hdr isInit o).reply ≠ HttpReply.escaped := by
  cases isInit with
  | true => cases o <;> simp [postMcp]
  | false =>
    cases hdr with
    | none => simp [postMcp]
    | some sid =>
      by_cases hs : sid = ""
      · simp [postMcp, hs]
      · cases hlk : lookupSession st sid with
        | none => simp [postMcp, hs, hlk]
        | some t => cases t <;> cases o <;> simp [postMcp, hs, hlk]

lemma postMessages_reply_not_escaped (st : SessionMap) (q : Option String)
    (o : HandleOutcome) : (postMessages st q o).reply ≠ HttpReply.escaped := by
  cases q with
  | none => simp [postMessages]
  | some sid =>
    by_cases hs : sid = ""
    · simp [postMessages, hs]
    · cases hlk : lookupSession st sid with
      | none => simp [postMessages, hs, hlk]
      | some t => cases t <;> cases o <;> simp [postMessages, hs, hlk]

lemma getSse_reply_not_escaped (st : SessionMap) (freshId : String) (o : HandleOutcome) :
    (getSse st freshId o).reply ≠ HttpReply.escaped := by
  cases o <;> simp [getSse]

/-- Counterexample to claim C5 as stated: a DELETE /mcp naming a live
session whose transport close fails is caught nowhere in that handler —
the failure propagates past the router. -/
theorem delete_close_failure_escapes :
    (deleteMcp [("sse1", TransportKind.EventStream)] (some "sse1") false).reply
      = HttpReply.escaped := by
  decide

/-- Claim C5 amended: every branch of POST /mcp, GET /sse and
POST /messages catches engine and transport failures — a failure before
the response has begun becomes a 500, carrying envelope code -32603 on
the RPC endpoint, and a later failure only abandons the connection — so
no request on those endpoints lets a failure escape the router; the one
exception is DELETE /mcp, whose close call is unguarded: a failure
escapes there exactly when the header names a live session and the close
fails. -/
theorem router_catch_all_spec (st : SessionMap) (freshId : String) (hdr : Option String)
    (isInit : Bool) (o : HandleOutcome) (q : Option String) :
    (postMcp st freshId hdr isInit o).reply ≠ HttpReply.escaped
    ∧ (postMessages st q o).reply ≠ HttpReply.escaped
    ∧ (getSse st freshId o).reply ≠ HttpReply.escaped
    ∧ ((postMcp st freshId hdr isInit HandleOutcome.errEarly).calls ≠ [] →
        (postMcp st freshId hdr isInit HandleOutcome.errEarly).reply
          = HttpReply.sent 500 (some (-32603)) none)
    ∧ (∀ ok : Bool, (deleteMcp st hdr ok).reply = HttpReply.escaped →
        ok = false ∧ ∃ sid, hdr = some sid ∧ sid ≠ ""
          ∧ (lookupSession st sid).isSome = true) := by
  refine ⟨postMcp_reply_not_escaped st freshId hdr isInit o,
    postMessages_reply_not_escaped st q o,
    getSse_reply_not_escaped st freshId o, ?_, ?_⟩
  · intro hcalls
    cases isInit with
    | true => simp [postMcp]
    | false =>
      cases hdr with
      | none => simp [postMcp] at hcalls
      | some sid =>
        by_cases hs : sid = ""
        · simp [postMcp, hs] at hcalls
        · cases hlk : lookupSession st sid with
          | none => simp [postMcp, hs, hlk] at hcalls
          | some t =>
            cases t with
            | RequestResponseStream => simp [postMcp, hs, hlk]
            | EventStream => simp [postMcp, hs, hlk] at hcalls
  · intro ok hesc
    cases hdr with
    | none => simp [deleteMcp] at hesc
    | some sid =>
      by_cases hs : sid = ""
      · simp [deleteMcp, hs] at hesc
      · cases hlk : lookupSession st sid with
        | none => simp [deleteMcp, hs, hlk] at hesc
        | some t =>
          cases ok with
          | true => simp [deleteMcp, hs, hlk] at hesc
          | false => exact ⟨rfl, sid, rfl, hs, by simp [hlk]⟩

/-- Witness for C5 (amended) at a concrete request: a pre-headers engine
failure on the forward branch of POST /mcp is turned into the 500
internal-error envelope. -/
theorem router_catch_all_spec_witness :
    (postMcp [("s1", TransportKind.RequestResponseStream)] "u1" (some "s1") false
        HandleOutcome.errEarly).reply = HttpReply.sent 500 (some (-32603)) none := by
  have h := router_catch_all_spec [("s1", TransportKind.RequestResponseStream)] "u1"
    (some "s1") false HandleOutcome.errEarly none
  exact h.2.2.2.1 (by decide)

/-- Claim C6: a POST to /mcp whose body is the session-opening message
stores a new entry under the freshly generated id with
RequestResponseStream kind, builds and connects a new engine instance,
forwards the payload to it, and on the success path the reply carries
the new session id in the Mcp-Session-Id response header. -/
theorem postMcp_create_session (st : SessionMap) (freshId : String) (hdr : Option String)
    (hfresh : lookupSession st freshId = none) :
    (postMcp st freshId hdr true HandleOutcome.ok).st
      = st ++ [(freshId, TransportKind.RequestResponseStream)]
    ∧ lookupSession (postMcp st freshId hdr true HandleOutcome.ok).st freshId
      = some TransportKind.RequestResponseStream
    ∧ (postMcp st freshId hdr true HandleOutcome.ok).calls
      = [ExtCall.connectEngine freshId, ExtCall.handleRequest freshId]
    ∧ (postMcp st freshId hdr true HandleOutcome.ok).reply
      = HttpReply.streamed (some freshId) := by
  have hstep : (postMcp st freshId hdr true HandleOutcome.ok).st
      = st ++ [(freshId, TransportKind.RequestResponseStream)] := by
    simp [postMcp, recordSet_eq_append st _ _ hfresh]
  refine ⟨hstep, ?_, by simp [postMcp], by simp [postMcp]⟩
  rw [hstep]
  exact lookupSession_append_single st freshId _ hfresh

/-- Witness for C6: opening a session against the empty store. -/
theorem postMcp_create_session_witness :
    lookupSession [] "u1" = none
    ∧ (postMcp [] "u1" none true HandleOutcome.ok).st
        = [("u1", TransportKind.RequestResponseStream)]
    ∧ (postMcp [] "u1" none true HandleOutcome.ok).reply
        = HttpReply.streamed (some "u1") := by
  have h := postMcp_create_session [] "u1" none rfl
  exact ⟨rfl, by simpa using h.1, h.2.2.2⟩

/-- Claim C7: with an id generator meeting the randomUUID contract —
modelled as never repeating (injective) and never empty — the ids handed
out by the creates of any lifecycle trace are pairwise distinct even
when earlier sessions were destroyed in between, and the id the
generator would produce next differs from every currently live session
id in the router state. -/
theorem session_ids_never_reused (gen : Nat → String) (hg : Function.Injective gen)
    (hne : ∀ n, gen n ≠ "") (ops : List SessionOp) :
    (((List.range (runOps gen ops ([], 0)).2).map gen).Nodup)
    ∧ gen (runOps gen ops ([], 0)).2 ∉ keysOf (runOps gen ops ([], 0)).1 := by
  have h := runOps_liveTrace gen hg hne ops [] [] 0 rfl (by intro s hs; simp at hs)
  refine ⟨List.Nodup.map hg (List.nodup_range _), ?_⟩
  intro hmem
  rw [h.1] at hmem
  obtain ⟨i, hi, hgi⟩ := h.2.2 _ hmem
  rw [← h.2.1] at hi
  exact absurd (hg hgi) (Nat.ne_of_gt hi)

/-- Witness for C7: a create, a destroy of that session, and a second
create — the next id is not live. -/
theorem session_ids_never_reused_witness :
    Function.Injective genA ∧ (∀ n, genA n ≠ "")
    ∧ genA (runOps genA ops0 ([], 0)).2 ∉ keysOf (runOps genA ops0 ([], 0)).1 :=
  ⟨genA_injective, genA_ne_empty,
   (session_ids_never_reused genA genA_injective genA_ne_empty ops0).2⟩

/-- Claim C8: after any lifecycle trace of creates and destroys, with the
id generator meeting its never-repeats nonempty contract, the sessions
count reported by GET /health equals the number of currently live —
created and not yet destroyed — sessions computed directly on the
trace. -/
theorem health_counts_live_sessions (gen : Nat → String) (hg : Function.Injective gen)
    (hne : ∀ n, gen n ≠ "") (ops : List SessionOp) :
    health (runOps gen ops ([], 0)).1 = ((liveTrace gen ops ([], 0)).1).length := by
  have h := runOps_liveTrace gen hg hne ops [] [] 0 rfl (by intro s hs; simp at hs)
  unfold health
  rw [h.1]

/-- Witness for C8: create, destroy, create leaves exactly one live
session, and /health reports 1. -/
theorem health_counts_live_sessions_witness :
    (health (runOps genA ops0 ([], 0)).1 = ((liveTrace genA ops0 ([], 0)).1).length)
    ∧ health (runOps genA ops0 ([], 0)).1 = 1 :=
  ⟨health_counts_live_sessions genA genA_injective genA_ne_empty ops0, by decide⟩

/-- Claim C9: POST /messages answers 400 when the sessionId query
parameter is absent (an empty value is treated as missing by the router),
answers 404 when a nonempty id does not resolve to a live EventStream
session — in particular when it names a RequestResponseStream session or
no session at all — and forwards the body to the session transport
exactly when a live EventStream session is named. -/
theorem postMessages_routing_spec (st : SessionMap) (o : HandleOutcome) (sid : String)
    (h1 : sid ≠ "") :
    ((postMessages st none o).reply = HttpReply.sent 400 none none
      ∧ (postMessages st none o).calls = [])
    ∧ (postMessages st (some "") o).reply = HttpReply.sent 400 none none
    ∧ (lookupSession st sid ≠ some TransportKind.EventStream →
        (postMessages st (some sid) o).reply = HttpReply.sent 404 none none
        ∧ (postMessages st (some sid) o).calls = [])
    ∧ (lookupSession st sid = some TransportKind.EventStream →
        (postMessages st (some sid) o).calls = [ExtCall.handlePostMessage sid]) := by
  refine ⟨⟨by simp [postMessages], by simp [postMessages]⟩, by simp [postMessages], ?_, ?_⟩
  · intro hne2
    cases hlk : lookupSession st sid with
    | none => constructor <;> simp [postMessages, h1, hlk]
    | some t =>
      cases t with
      | RequestResponseStream => constructor <;> simp [postMessages, h1, hlk]
      | EventStream => exact absurd hlk hne2
  · intro hlk
    cases o <;> simp [postMessages, h1, hlk]

/-- Witness for C9: a live SSE session receives the forwarded message. -/
theorem postMessages_routing_spec_witness :
    ("e1" ≠ "")
    ∧ (postMessages [("e1", TransportKind.EventStream)] (some "e1") HandleOutcome.ok).calls
        = [ExtCall.handlePostMessage "e1"] := by
  refine ⟨by decide, ?_⟩
  exact (postMessages_routing_spec [("e1", TransportKind.EventStream)] HandleOutcome.ok "e1"
    (by decide)).2.2.2 (by decide)

/-- Claim C10: a POST to /mcp whose session header names a live
EventStream (SSE) session is not rejected with the -32000 invalid-session
envelope — the router does no transport-kind check and reaches the
forward branch — but the SSE transport has no request/response-stream
handler, so the attempted forward fails at once and the catch-all
answers 500 with envelope code -32603, leaving the session map
unchanged. -/
theorem postMcp_event_stream_no_kind_check (st : SessionMap) (freshId sid : String)
    (o : HandleOutcome) (h1 : sid ≠ "")
    (h2 : lookupSession st sid = some TransportKind.EventStream) :
    (postMcp st freshId (some sid) false o).reply = HttpReply.sent 500 (some (-32603)) none
    ∧ (postMcp st freshId (some sid) false o).reply ≠ HttpReply.sent 400 (some (-32000)) none
    ∧ (postMcp st freshId (some sid) false o).st = st := by
  refine ⟨?_, ?_, ?_⟩ <;> simp [postMcp, h1, h2]

/-- Witness for C10: one live SSE session addressed through POST /mcp. -/
theorem postMcp_event_stream_no_kind_check_witness :
    ("e1" ≠ ""
      ∧ lookupSession [("e1", TransportKind.EventStream)] "e1"
        = some TransportKind.EventStream)
    ∧ (postMcp [("e1", TransportKind.EventStream)] "u1" (some "e1") false
        HandleOutcome.ok).reply = HttpReply.sent 500 (some (-32603)) none :=
  ⟨⟨by decide, by decide⟩,
   (postMcp_event_stream_no_kind_check [("e1", TransportKind.EventStream)] "u1" "e1"
     HandleOutcome.ok (by decide) (by decide)).1⟩
